import Mathlib

/-!
Verification development for the BlenderFDS descriptor framework
(`zzz_blenderfds/types.py`) and its geometric utilities
(`zzz_blenderfds/geometry/utils.py`).

The Python source is shallowly embedded: Blender entities become finite
maps from property id-names to values, descriptor classes become plain
records, the short-lived descriptor instances become functions taking the
record and the bound entity, and exception raising becomes `Except`.
Instance state (`self.infos`) is threaded explicitly.  Python floats are
modelled by exact rationals.
-/

namespace BlenderFDS

/-! ## Values

A Blender property value, as seen by the descriptor framework.  Scalars
are booleans, integers, floats (modelled as rationals) and strings;
vector values are flat sequences of scalars (Blender vector properties
never nest, and `utils.is_iterable` treats strings as non-iterable).
`PyVal.none` is Python's `None`, the `getattr` default for a missing
attribute. -/

inductive PyScalar where
  | bool (b : Bool)
  | int (i : Int)
  | float (q : ℚ)
  | str (s : String)
deriving DecidableEq, Repr

inductive PyVal where
  | none
  | scalar (s : PyScalar)
  | list (vs : List PyScalar)
deriving DecidableEq, Repr

/-- Python truthiness of a scalar. -/
def PyScalar.truthy : PyScalar → Bool
  | .bool b => b
  | .int i => i != 0
  | .float q => q != 0
  | .str s => s ≠ ""

/-- Python truthiness of a value (`bool(value)`). -/
def PyVal.truthy : PyVal → Bool
  | .none => false
  | .scalar s => s.truthy
  | .list vs => vs ≠ []

/-- `utils.is_iterable` (strings are not treated as iterable). -/
def PyVal.is_iterable : PyVal → Bool
  | .list _ => true
  | _ => false

/-- Python's fixed-point float formatting `"{:.pf}".format(q)`,
on the exact rational the float stands for. -/
def fixedPoint (prec : Nat) (q : ℚ) : String :=
  let n : Int := round (q * (10 : ℚ) ^ prec)
  let d : Nat := 10 ^ prec
  let ip := n.natAbs / d
  let fp := n.natAbs % d
  let fps := toString fp
  let frac := String.mk (List.replicate (prec - fps.length) '0') ++ fps
  (if n < 0 then "-" else "") ++ toString ip ++
    (if prec = 0 then "" else "." ++ frac)

/-- Python `str()` of a scalar.  (The float case approximates Python's
shortest-repr with the rational's representation; it is only reachable
through mixed-type sequences, which Blender properties never produce.) -/
def PyScalar.str_ : PyScalar → String
  | .bool b => if b then "True" else "False"
  | .int i => toString i
  | .float q => toString q
  | .str s => s

/-- Python `str()` of a value. -/
def PyVal.str_ : PyVal → String
  | .none => "None"
  | .scalar s => s.str_
  | .list vs => String.intercalate ", " (vs.map PyScalar.str_)

/-! ## Entities

A Blender entity (Scene, Object or Material) is modelled as a total map
from Blender property id-names to values; an attribute that was never
set reads as `PyVal.none`, matching `getattr(element, name, None)`. -/

def Element : Type := String → PyVal

/-- `setattr(element, id, v)`. -/
def Element.set (e : Element) (id : String) (v : PyVal) : Element :=
  fun k => if k = id then v else e k

/-- The entity with no attribute set. -/
def Element.empty : Element := fun _ => PyVal.none

/-! ## Errors

`BFException` lives in `exceptions.py`, which is not part of the sources
under inspection.

Modelled from the spec: a descriptor error carries the offending
descriptor (here: its display string), a human-readable message, and
optionally a list of nested child errors (compound error).
`indexError` and `typeError` stand for the host-language errors the
source can raise outside `BFException` (`params.pop(0)` / `values[0]` on
an empty sequence, string operations on non-strings); these are not
caught by the `except BFException` handlers. -/

inductive Err where
  | bf (sender : String) (msg : String) (causes : List Err)
  | indexError
  | typeError

/-- True for descriptor errors (`BFException`), the only errors caught
by the aggregation loops. -/
def Err.isBF : Err → Bool
  | .bf _ _ _ => true
  | _ => false

/-- Modelled from the spec: `BFException.free_texts` (exceptions.py is
not in the sources), the texts recorded into the unmanaged buffer when
an import raises. -/
def Err.free_texts : Err → List String
  | .bf _ msg _ => [msg]
  | _ => []

/-! ## Descriptor records

`BFProp`/`BFNamelist` subclasses are short-lived wrappers around class
attributes; the class attributes become record fields.  `kind` selects
the subclass-specific `check`/`format` overrides present in the source:

* `base`   — `BFProp` itself (also geometry props, which override UI only);
* `export` — `BFExportProp` (no `check`/`format` overrides);
* `string` — `BFStringProp`;
* `fyi`    — `BFFYIProp` (inherits `BFStringProp` behaviour);
* `free`   — `BFFreeProp` (own `check`, inherits `BFStringProp.format`).
-/

inductive PropKind where
  | base
  | export
  | string
  | fyi
  | free
deriving DecidableEq, Repr

/-- The export-flag descriptor attached to an owner via
`bf_prop_export` (`BFExportProp`: a boolean property, display default
`False`, no FDS label of its own). -/
structure ExportProp where
  bpy_idname : Option String
  bpy_default : Option PyVal
deriving DecidableEq, Repr

/-- A property descriptor: the class attributes of a `BFProp` subclass.
`bpy_default` is the displayed default from `bpy_other`; per
`_BFCommon.register`, a non-null `fds_default` is inserted there when
absent (see `displayed_default`).  `precision` is `bpy_other["precision"]`
(`format` falls back to 3).  Modelled descriptors have no nested
sub-properties. -/
structure BFProp where
  label : String
  fds_label : Option String
  fds_default : Option PyVal
  bpy_idname : Option String
  bpy_default : Option PyVal
  bf_prop_export : Option ExportProp
  precision : Option Nat
  kind : PropKind
deriving DecidableEq, Repr

/-- The entity kind a namelist binds to (`bpy_type`). -/
inductive BpyType where
  | scene
  | object
  | material
deriving DecidableEq, Repr

/-- A namelist descriptor: the class attributes of a `BFNamelist`
subclass.  `name` is the class name, the registry key (`ClsList`
lookup by name, e.g. `"ON_free"`). -/
structure BFNamelist where
  name : String
  label : String
  fds_label : Option String
  fds_default : Option PyVal
  fds_separator : String
  bpy_idname : Option String
  bpy_default : Option PyVal
  bf_prop_export : Option ExportProp
  bf_props : List BFProp
  bpy_type : BpyType
deriving Repr

/-! ## `_BFCommon` / `BFProp`: values, export test, defaults -/

/-- `_BFCommon.get_value` for an export-flag descriptor. -/
def ExportProp.get_value (x : ExportProp) (e : Element) : PyVal :=
  match x.bpy_idname with
  | some id => e id
  | Option.none => PyVal.none

/-- `_BFCommon.set_value` for an export-flag descriptor. -/
def ExportProp.set_value (x : ExportProp) (e : Element) (v : PyVal) : Element :=
  match x.bpy_idname with
  | some id => e.set id v
  | Option.none => e

/-- `_BFCommon.get_value`: read the bound Blender attribute
(`getattr(self.element, self.bpy_idname or str(), None)`). -/
def BFProp.get_value (p : BFProp) (e : Element) : PyVal :=
  match p.bpy_idname with
  | some id => e id
  | Option.none => PyVal.none

/-- `_BFCommon.set_value`: write the bound Blender attribute (no
validation). -/
def BFProp.set_value (p : BFProp) (e : Element) (v : PyVal) : Element :=
  match p.bpy_idname with
  | some id => e.set id v
  | Option.none => e

/-- `_BFCommon.get_exported`, common to properties and namelists, as a
function of the declared FDS default, the export-flag value (when an
export-flag descriptor is attached) and the own value. -/
def getExportedCore (fds_default : Option PyVal) (exportVal : Option PyVal)
    (value : PyVal) : Bool :=
  match fds_default with
  | Option.none =>
    match exportVal with
    | some v => v.truthy
    | Option.none => true
  | some d =>
    match exportVal with
    | some v => v.truthy && decide (value ≠ d)
    | Option.none => decide (value ≠ d)

/-- `_BFCommon.get_exported` on a property descriptor. -/
def BFProp.get_exported (p : BFProp) (e : Element) : Bool :=
  getExportedCore p.fds_default (p.bf_prop_export.map (·.get_value e))
    (p.get_value e)

/-- `_BFCommon.set_exported` on a property descriptor. -/
def BFProp.set_exported (p : BFProp) (e : Element) (v : PyVal) : Element :=
  match p.bf_prop_export with
  | some ex => ex.set_value e v
  | Option.none => e

/-- The displayed default: `bpy_other["default"]`, which
`_BFCommon.register` seeds with `fds_default` when the class declares
one and `bpy_other` has none. -/
def BFProp.displayed_default (p : BFProp) : Option PyVal :=
  p.bpy_default.orElse (fun _ => p.fds_default)

/-- `_BFCommon.set_default_value` on a property descriptor. -/
def BFProp.set_default_value (p : BFProp) (e : Element) : Element :=
  match p.displayed_default with
  | some d => p.set_value e d
  | Option.none => e

/-- `_BFCommon.set_default_value` on an export-flag descriptor
(its `fds_default` is `None`, so the displayed default is `bpy_other`'s). -/
def ExportProp.set_default_value (x : ExportProp) (e : Element) : Element :=
  match x.bpy_default with
  | some d => x.set_value e d
  | Option.none => e

/-- The display string used as `BFException` sender (`__str__` renders
`"<element> > <fds_label or label>"`; the element part is not modelled). -/
def BFProp.strOf (p : BFProp) : String :=
  p.fds_label.getD p.label

/-- `BFNamelist` display string, as for properties. -/
def BFNamelist.strOf (n : BFNamelist) : String :=
  n.fds_label.getD n.label

/-! ## Validation (`check`) -/

/-- Substring containment, Python's `sub in s`. -/
def strContainsSub (s sub : String) : Bool :=
  decide (sub.toList <:+: s.toList)

/-- Single-character containment, Python's `c in s`
(via the character list). -/
def charIn (s : String) (c : Char) : Bool :=
  s.toList.contains c

/-- The two-character sequence U+2019 U+200C whose *substring* presence
(`"’‌" in value`) the source's quote checks test for. -/
def rsquoZwnj : String := "’‌"

/-- `BFStringProp.check` on the raw string value. -/
def strCheck (sender : String) (s : String) : Except Err Unit :=
  if charIn s '&' || charIn s '/' then
    .error (.bf sender "& and / characters not allowed" [])
  else if charIn s '#' then
    .error (.bf sender "Some special characters are not allowed (eg. #)" [])
  else if charIn s '\'' || charIn s '"' || charIn s '`' ||
      charIn s '“' || charIn s '”' || charIn s '‘' ||
      strContainsSub s rsquoZwnj then
    .error (.bf sender "Quote characters not allowed" [])
  else
    .ok ()

/-- `BFFreeProp.check` on the raw string value (`value.count("'") % 2`
counts single-quote occurrences). -/
def freeCheck (sender : String) (s : String) : Except Err Unit :=
  if charIn s '&' || charIn s '/' then
    .error (.bf sender "& and / characters not allowed" [])
  else if charIn s '#' then
    .error (.bf sender "Some special characters are not allowed (eg. #)" [])
  else if charIn s '`' || charIn s '‘' || strContainsSub s rsquoZwnj ||
      charIn s '"' || charIn s '”' ||
      decide (s.toList.count '\'' % 2 ≠ 0) then
    .error (.bf sender "Only use matched single quotes as \x27string\x27 delimiters" [])
  else
    .ok ()

/-- `check`: the base `_BFCommon.check` passes; `BFStringProp` (and
`BFFYIProp`) and `BFFreeProp` override it.  Applying `in` to a
non-string value raises the host `TypeError`. -/
def BFProp.check (p : BFProp) (e : Element) : Except Err Unit :=
  match p.kind with
  | .base | .export => .ok ()
  | .string | .fyi =>
    match p.get_value e with
    | .scalar (.str s) => strCheck p.strOf s
    | _ => .error .typeError
  | .free =>
    match p.get_value e with
    | .scalar (.str s) => freeCheck p.strOf s
    | _ => .error .typeError

/-! ## Formatting (`format`) -/

/-- One element of the boolean branch:
`value and ".TRUE." or ".FALSE."` (element truthiness). -/
def pyBoolFmt (v : PyScalar) : String :=
  if v.truthy then ".TRUE." else ".FALSE."

/-- One element of the float branch, `"{:.{p}f}".format(value)`:
formats numbers, raises `TypeError`/`ValueError` on anything else. -/
def pyFixedFmt (prec : Nat) : PyScalar → Except Err String
  | .float q => .ok (fixedPoint prec q)
  | .int i => .ok (fixedPoint prec (i : ℚ))
  | .bool b => .ok (fixedPoint prec (if b then 1 else 0))
  | .str _ => .error .typeError

/-- The float branch's element-wise formatting, raising on the first
non-numeric element. -/
def mapFixed (prec : Nat) : List PyScalar → Except Err (List String)
  | [] => .ok []
  | v :: vs => do
    let s ← pyFixedFmt prec v
    let l ← mapFixed prec vs
    pure (s :: l)

/-- `if not is_iterable(value): values = tuple((value,))`: the sequence
a value is rendered from. -/
def pyValues : PyVal → List PyScalar
  | .list vs => vs
  | .scalar s => [s]
  | .none => []

/-- The body of `BFProp.format`: choose the rendering from the runtime
type of the first element and comma-join.  `values[0]` on an empty
sequence raises the host `IndexError`. -/
def BFProp.baseBody (p : BFProp) (v : PyVal) : Except Err (Option String) :=
  match pyValues v with
  | [] => .error .indexError
  | v0 :: rest =>
    match v0 with
    | .bool _ =>
      .ok (some (String.intercalate "," ((v0 :: rest).map pyBoolFmt)))
    | .int _ =>
      .ok (some (String.intercalate "," ((v0 :: rest).map PyScalar.str_)))
    | .float _ => do
      let l ← mapFixed ((p.precision).getD 3) (v0 :: rest)
      pure (some (String.intercalate "," l))
    | .str _ =>
      -- `isinstance(values[0], str) and value`: the *original* value's
      -- truthiness decides (an empty string renders nothing)
      .ok (if v.truthy then
        some (String.intercalate ","
          ((v0 :: rest).map (fun x => "\x27" ++ x.str_ ++ "\x27")))
      else Option.none)

/-- `BFProp.format`: wrap a scalar into a one-element sequence, render
the body, then prefix `LABEL=` when `fds_label` is set (`str(value)`
otherwise). -/
def BFProp.baseFormat (p : BFProp) (value : PyVal) : Except Err (Option String) :=
  match value with
  | .none => .ok Option.none
  | v =>
    match BFProp.baseBody p v with
    | .error er => .error er
    | .ok Option.none => .ok Option.none
    | .ok (some b) =>
      .ok (some (match p.fds_label with
        | some l => l ++ "=" ++ b
        | Option.none => b))

/-- `BFStringProp.format`: quote a truthy value, prefixing the label;
render nothing (implicit `None`) otherwise. -/
def BFProp.stringFormat (p : BFProp) (value : PyVal) : Option String :=
  if value.truthy then
    match p.fds_label with
    | some l => some (l ++ "=\x27" ++ value.str_ ++ "\x27")
    | Option.none => some value.str_
  else Option.none

/-- `format`, dispatched on the subclass. -/
def BFProp.format (p : BFProp) (value : PyVal) : Except Err (Option String) :=
  match p.kind with
  | .string | .fyi | .free => .ok (p.stringFormat value)
  | .base | .export => p.baseFormat value

/-! ## Property export/import -/

/-- `BFProp.to_fds`: `None` when not exported, else `check` (raising on
failure) then `format` of the current value. -/
def BFProp.to_fds (p : BFProp) (e : Element) : Except Err (Option String) :=
  if !(p.get_exported e) then .ok Option.none
  else
    match p.check e with
    | .error er => .error er
    | .ok () => p.format (p.get_value e)

/-- `BFProp.from_fds`: set the value, then mark the export flag.
`set_value` cannot fail on the modelled entity (the host `setattr`
type errors, wrapped into a `BFException` by the source, are not
reachable here), so the wrapping branch is never taken. -/
def BFProp.from_fds (p : BFProp) (e : Element) (v : PyVal) : Element :=
  p.set_exported (p.set_value e v) (.scalar (.bool true))

/-! ## `BFNamelist`: derived collections and state -/

/-- `_BFCommon.get_exported` on a namelist descriptor. -/
def BFNamelist.get_exported (n : BFNamelist) (e : Element) : Bool :=
  getExportedCore n.fds_default (n.bf_prop_export.map (·.get_value e))
    (match n.bpy_idname with
     | some id => e id
     | Option.none => PyVal.none)

/-- `_BFCommon.set_exported` on a namelist descriptor. -/
def BFNamelist.set_exported (n : BFNamelist) (e : Element) (v : PyVal) : Element :=
  match n.bf_prop_export with
  | some ex => ex.set_value e v
  | Option.none => e

/-- `_BFCommon.bf_prop_free`: the first child that is a `BFFreeProp`. -/
def BFNamelist.bf_prop_free (n : BFNamelist) : Option BFProp :=
  n.bf_props.find? (fun p => p.kind = PropKind.free)

/-- Modelled from the spec: `ClsList.get_by_fds_label` (the `utils`
module is not in the sources) — the first managed descriptor whose
external label equals the given one.  The lookup runs over
`all_bf_props`; export-flag descriptors carry no `fds_label` and never
match, and the modelled descriptors have no nested children, so the
search reduces to the direct `bf_props`. -/
def BFNamelist.get_by_fds_label (n : BFNamelist) (lbl : String) : Option BFProp :=
  n.bf_props.find? (fun p => p.fds_label = some lbl)

/-- `_BFCommon.set_default`: own displayed default, then the defaults
of `all_bf_props` — the namelist's export-flag descriptor followed by
each child property and, per the `@subscribe` collection order, the
child's own export-flag descriptor. -/
def BFNamelist.set_default (n : BFNamelist) (e : Element) : Element :=
  let e :=
    match n.bpy_default.orElse (fun _ => n.fds_default) with
    | some d =>
      (match n.bpy_idname with
       | some id => e.set id d
       | Option.none => e)
    | Option.none => e
  let e :=
    match n.bf_prop_export with
    | some ex => ex.set_default_value e
    | Option.none => e
  n.bf_props.foldl (fun e p =>
    let e := p.set_default_value e
    match p.bf_prop_export with
    | some ex => ex.set_default_value e
    | Option.none => e) e

/-! ## `BFNamelist.format` -/

/-- An exported parameter handed to `BFNamelist.format`: a plain string,
or a multiparam (a sequence of alternative bodies produced by a
geometry property). -/
inductive Param where
  | str (s : String)
  | multi (ss : List String)
deriving DecidableEq, Repr

/-- The `! info` comment lines preceding a record. -/
def renderInfos (infos : List String) : String :=
  String.join (infos.map (fun i => "! " ++ i ++ "\n"))

/-- Extract the first multiparam (`for param in params: if
is_iterable(param): ... params.remove(param); break`). -/
def extractMulti : List Param → Option (List String) × List Param
  | [] => (Option.none, [])
  | .multi ss :: rest => (some ss, rest)
  | .str s :: rest =>
    let r := extractMulti rest
    (r.1, .str s :: r.2)

/-- Python's `param[:3] == "ID="` on a string parameter
(via the character list). -/
def isIDParam (s : String) : Bool :=
  s.toList.take 3 == "ID=".toList

/-- Remove the first ordinary single-ID parameter
(`if param[:3] == "ID=": params.remove(param); break`; slicing a
multiparam never equals the string). -/
def removeFirstID : List Param → List Param
  | [] => []
  | .str s :: rest =>
    if isIDParam s then rest else .str s :: removeFirstID rest
  | .multi ss :: rest => .multi ss :: removeFirstID rest

/-- `fds_separator.join(params)` after `params.append("/\n")`: joining
raises the host `TypeError` when a multiparam is still present. -/
def paramsAsStrings : List Param → Except Err (List String)
  | [] => .ok []
  | .str s :: rest => do
    let l ← paramsAsStrings rest
    pure (s :: l)
  | .multi _ :: _ => .error .typeError

/-- The record label of `BFNamelist.format`: the static `fds_label`,
else the first parameter is consumed as the label (`params.pop(0)`,
raising the host `IndexError` on an empty list; `"".join` with a
multiparam raises `TypeError`). -/
def BFNamelist.formatLbl (n : BFNamelist) (params : List Param) :
    Except Err (String × List Param) :=
  match n.fds_label with
  | some l => .ok (l, params)
  | Option.none =>
    match params with
    | [] => .error Err.indexError
    | .str s :: rest => .ok (s, rest)
    | .multi _ :: _ => .error Err.typeError

/-- The body of `BFNamelist.format` once the label is settled: if a
multiparam is present it is extracted and the single-ID parameter
dropped, then the remaining parameters are joined and one record
emitted per alternative body (an extracted empty multiparam is falsy
and yields a single record). -/
def BFNamelist.formatBody (n : BFNamelist) (infos : List String)
    (lbl : String) (params : List Param) : Except Err String :=
  let fdsLabelStr := "&" ++ lbl ++ " "
  let info := renderInfos infos
  let mp :=
    match extractMulti params with
    | (some ms, rest) => (some ms, removeFirstID rest)
    | (Option.none, rest) => ((Option.none : Option (List String)), rest)
  match paramsAsStrings mp.2 with
  | .error er => .error er
  | .ok strs =>
    let param := String.intercalate n.fds_separator (strs ++ ["/\n"])
    let body :=
      match mp.1 with
      | some (m :: ms) =>
        String.join ((m :: ms).map
          (fun x => fdsLabelStr ++ x ++ n.fds_separator ++ param))
      | _ => fdsLabelStr ++ param
    .ok (info ++ body)

/-- `BFNamelist.format`: info comment lines, then the record(s). -/
def BFNamelist.format (n : BFNamelist) (infos : List String)
    (params : List Param) : Except Err String :=
  match BFNamelist.formatLbl n params with
  | .error er => .error er
  | .ok (lbl, params) => BFNamelist.formatBody n infos lbl params

/-! ## `BFNamelist.to_fds` -/

/-- The child-export loop of `BFNamelist.to_fds`: collect truthy
parameter strings and every raised `BFException`; any other exception
escapes the `except BFException` handler at once.  (Child `check`s in
this source append no infos, so `self.infos.extend(bf_prop.infos)`
leaves the instance infos unchanged.) -/
def BFNamelist.exportProps (e : Element) :
    List BFProp → List String → List Err → Except Err (List String × List Err)
  | [], params, errors => .ok (params, errors)
  | p :: ps, params, errors =>
    match BFProp.to_fds p e with
    | .error er =>
      if er.isBF then BFNamelist.exportProps e ps params (errors ++ [er])
      else .error er
    | .ok param =>
      let params :=
        match param with
        | some s => if s = "" then params else params ++ [s]
        | Option.none => params
      BFNamelist.exportProps e ps params errors

/-- The errors raised by the children's exports, in declaration order. -/
def BFNamelist.childErrs (n : BFNamelist) (e : Element) : List Err :=
  n.bf_props.filterMap (fun p =>
    match BFProp.to_fds p e with
    | .error er => some er
    | .ok _ => Option.none)

/-- `BFNamelist.to_fds`: `None` when not exported; else check self (the
base no-op), export every child collecting parameters and errors,
re-raise all collected errors as one compound `BFException`, and
otherwise format the record.  `infos` is the instance's `self.infos`
state, threaded in and out. -/
def BFNamelist.to_fds (n : BFNamelist) (e : Element) (infos : List String) :
    Except Err (Option String) × List String :=
  if !(n.get_exported e) then (.ok Option.none, infos)
  else
    match BFNamelist.exportProps e n.bf_props [] [] with
    | .error er => (.error er, infos)
    | .ok (params, errors) =>
      match errors with
      | _ :: _ =>
        (.error (.bf n.strOf "Following errors reported" errors), infos)
      | [] =>
        match n.format infos (params.map Param.str) with
        | .error er => (.error er, infos)
        | .ok s => (.ok (some s), infos)

/-! ## `BFNamelist.from_fds` -/

/-- One token of a namelist import:
external label, typed value, original value text. -/
structure PropToken where
  fds_label : String
  value : PyVal
  fds_value : String
deriving DecidableEq, Repr

/-- The token iteration order: `sorted(tokens.keys(), key=lambda k:
k==("SURF_ID"))` — a stable sort putting `SURF_ID` last. -/
def sortTokensSurfLast (tokens : List PropToken) : List PropToken :=
  tokens.filter (fun t => t.fds_label ≠ "SURF_ID") ++
    tokens.filter (fun t => t.fds_label = "SURF_ID")

/-- The reconstructed texts of the unmanaged tokens, in iteration
order (`free_texts.append(fds_label + "=" + fds_value)`). -/
def BFNamelist.unmanagedTexts (n : BFNamelist) (tokens : List PropToken) :
    List String :=
  (sortTokensSurfLast tokens).filterMap (fun t =>
    if (n.get_by_fds_label t.fds_label).isNone then
      some (t.fds_label ++ "=" ++ t.fds_value)
    else Option.none)

/-- One step of the `BFNamelist.from_fds` token loop: import a managed
token through its descriptor, or record `label=value` in the unmanaged
buffer. -/
def BFNamelist.importTokenStep (n : BFNamelist)
    (acc : Element × List String) (t : PropToken) : Element × List String :=
  match n.get_by_fds_label t.fds_label with
  | some p => (p.from_fds acc.1 t.value, acc.2)
  | Option.none => (acc.1, acc.2 ++ [t.fds_label ++ "=" ++ t.fds_value])

/-- `BFNamelist.from_fds`: return at once on an empty token collection;
reset a scene-bound namelist to defaults; import each token through its
managed descriptor or record `label=value` in the unmanaged buffer;
store the joined buffer into the free-text property when both are
present; re-raise collected errors (none can occur on the modelled
entity, see `BFProp.from_fds`) or mark the namelist exported. -/
def BFNamelist.from_fds (n : BFNamelist) (e : Element)
    (tokens : List PropToken) : Element × Option Err :=
  if tokens.isEmpty then (e, Option.none)
  else
    let e := if n.bpy_type = BpyType.scene then n.set_default e else e
    let r := (sortTokensSurfLast tokens).foldl n.importTokenStep (e, [])
    let e :=
      match r.2, n.bf_prop_free with
      | _ :: _, some fp =>
        fp.set_value r.1 (.scalar (.str (String.intercalate " " r.2)))
      | _, _ => r.1
    let errors : List Err := []
    match errors with
    | _ :: _ => (e, some (.bf n.strOf "Following errors reported" errors))
    | [] => (n.set_exported e (.scalar (.bool true)), Option.none)

/-! ## `BFScene`: document import -/

/-- One token of a document import, as produced by the external
tokenizer: namelist label, parameter tokens, original record text. -/
structure SceneToken where
  fds_label : String
  fds_params : List PropToken
  fds_original : String
deriving DecidableEq, Repr

/-- The scene-side state touched by a document import: the scene entity,
the free-text overflow store (the named text blob `fds.head.
set_free_text_file` returns — modelled from the spec as a per-scene
string, since the `fds` module is not in the sources), and the entities
created for imported object/material namelists. -/
structure SceneState where
  scene : Element
  store : String
  created : List Element

/-- `BFScene._get_imported_bf_namelist_cls`: registry lookup by external
label, with the structural fallback to the catch-all `"ON_free"` class
when the token carries geometry-shaped parameters. -/
def BFScene.get_imported_bf_namelist_cls (reg : List BFNamelist)
    (fds_label : String) (fds_params : List PropToken) : Option BFNamelist :=
  match reg.find? (fun nl => nl.fds_label = some fds_label) with
  | some cls => some cls
  | Option.none =>
    if fds_params.any (fun t =>
        t.fds_label = "XB" || t.fds_label = "XYZ" || t.fds_label = "PBX" ||
        t.fds_label = "PBY" || t.fds_label = "PBZ") then
      reg.find? (fun nl => nl.name = "ON_free")
    else Option.none

/-- `BFScene._save_imported_unmanaged_tokens`: append the store's
existing contents to the accumulated free texts, then rewrite the store
with the newline-joined merge — unconditionally. -/
def BFScene.save_imported_unmanaged_tokens (st : SceneState)
    (free_texts : List String) : SceneState :=
  let fts := if st.store ≠ "" then free_texts ++ [st.store] else free_texts
  { st with store := String.intercalate "\n" fts }

/-- The document-import iteration order: `sorted(tokens, key=lambda k:
k[0] != ("SURF_ID"))` — a stable sort putting `SURF_ID` records first. -/
def sortTokensSurfFirst (tokens : List SceneToken) : List SceneToken :=
  tokens.filter (fun t => t.fds_label = "SURF_ID") ++
    tokens.filter (fun t => t.fds_label ≠ "SURF_ID")

/-- One step of the document-import loop: dispatch the token to its
managed namelist (importing into the scene itself or a freshly created
object/material), or record its original text verbatim.  The per-token
`except BFException` branch folds the error's texts into the buffer;
on the modelled entity a managed import never raises. -/
def BFScene.importToken (reg : List BFNamelist)
    (acc : SceneState × List String × Bool) (tk : SceneToken) :
    SceneState × List String × Bool :=
  let (st, fts, errs) := acc
  match BFScene.get_imported_bf_namelist_cls reg tk.fds_label tk.fds_params with
  | some cls =>
    match cls.bpy_type with
    | .scene =>
      let r := cls.from_fds st.scene tk.fds_params
      match r.2 with
      | some er => ({ st with scene := r.1 }, fts ++ er.free_texts, true)
      | Option.none => ({ st with scene := r.1 }, fts, errs)
    | .object =>
      let e0 := Element.set Element.empty "bf_namelist_cls"
        (.scalar (.str cls.name))
      let r := cls.from_fds e0 tk.fds_params
      match r.2 with
      | some er =>
        ({ st with created := st.created ++ [r.1] }, fts ++ er.free_texts, true)
      | Option.none =>
        ({ st with created := st.created ++ [r.1] }, fts, errs)
    | .material =>
      let e0 := Element.set Element.empty "bf_namelist_cls"
        (.scalar (.str "MN_SURF"))
      let r := cls.from_fds e0 tk.fds_params
      match r.2 with
      | some er =>
        ({ st with created := st.created ++ [r.1] }, fts ++ er.free_texts, true)
      | Option.none =>
        ({ st with created := st.created ++ [r.1] }, fts, errs)
  | Option.none => (st, fts ++ [tk.fds_original], errs)

/-- `BFScene.from_fds`: tokenize (the input is the tokenizer's outcome;
a tokenizer error contributes its `free_texts` and no tokens), treat the
tokens `SURF_ID` first, always save the accumulated free texts into the
overflow store, and finally report whether errors occurred (the source
then raises one summary `BFException`). -/
def BFScene.from_fds (reg : List BFNamelist) (st : SceneState)
    (input : Except (List String) (List SceneToken)) : SceneState × Bool :=
  match input with
  | .error errFreeTexts =>
    (BFScene.save_imported_unmanaged_tokens st errFreeTexts, true)
  | .ok tokens =>
    let r := (sortTokensSurfFirst tokens).foldl (BFScene.importToken reg)
      (st, [], false)
    (BFScene.save_imported_unmanaged_tokens r.1 r.2.1, r.2.2)

/-- The free texts a document import accumulates: the tokenizer error's
texts, or the original texts of the tokens no managed namelist claims
(managed imports raise nothing on the modelled entity). -/
def BFScene.importFreeTexts (reg : List BFNamelist)
    (input : Except (List String) (List SceneToken)) : List String :=
  match input with
  | .error fts => fts
  | .ok tokens =>
    (sortTokensSurfFirst tokens).filterMap (fun tk =>
      if (BFScene.get_imported_bf_namelist_cls reg tk.fds_label
          tk.fds_params).isNone then
        some tk.fds_original
      else Option.none)

/-! ## Geometry utilities (`geometry/utils.py`)

Bounding boxes in xb format; Python float arithmetic is modelled by
exact rationals. -/

/-- A bounding box in xb format `(x0, x1, y0, y1, z0, z1)`. -/
structure XB where
  x0 : ℚ
  x1 : ℚ
  y0 : ℚ
  y1 : ℚ
  z0 : ℚ
  z1 : ℚ
deriving DecidableEq, Repr

/-- `calc_movement_from_bbox1_to_bbox0`. -/
def calc_movement_from_bbox1_to_bbox0 (bbox0 bbox1 : XB) : ℚ × ℚ × ℚ :=
  ((bbox0.x0 + bbox0.x1 - bbox1.x0 - bbox1.x1) / 2,
   (bbox0.y0 + bbox0.y1 - bbox1.y0 - bbox1.y1) / 2,
   (bbox0.z0 + bbox0.z1 - bbox1.z0 - bbox1.z1) / 2)

/-- `move_xbs`: translate each box by the movement vector (the source
rewrites each `xb` in place; the translated list is returned here). -/
def move_xbs (xbs : List XB) (movement : ℚ × ℚ × ℚ) : List XB :=
  xbs.map (fun xb =>
    { x0 := xb.x0 + movement.1, x1 := xb.x1 + movement.1,
      y0 := xb.y0 + movement.2.1, y1 := xb.y1 + movement.2.1,
      z0 := xb.z0 + movement.2.2, z1 := xb.z1 + movement.2.2 })

/-- The centre of a box in xb format. -/
def XB.center (b : XB) : ℚ × ℚ × ℚ :=
  ((b.x0 + b.x1) / 2, (b.y0 + b.y1) / 2, (b.z0 + b.z1) / 2)

/-- The extents of a box in xb format. -/
def XB.size (b : XB) : ℚ × ℚ × ℚ :=
  (b.x1 - b.x0, b.y1 - b.y0, b.z1 - b.z0)

/-! ## Specification-side helpers

Used in theorem statements to express the spec's wording independently
of the embedded code. -/

/-- The spec's `LABEL=values` prefixing rule. -/
def withLabel (fl : Option String) (body : String) : String :=
  match fl with
  | some l => l ++ "=" ++ body
  | Option.none => body

/-- The spec's multiparam rule drops the (single) `ID=` parameter:
remove the first string with that prefix. -/
def dropFirstIDStr : List String → List String
  | [] => []
  | s :: rest =>
    if isIDParam s then rest else s :: dropFirstIDStr rest

/-! ## Test fixtures (concrete descriptors and entities) -/

/-- A bare `BFProp` descriptor bound to attribute `bf_x`. -/
def mkBaseProp (fl : Option String) (prec : Option Nat) : BFProp :=
  { label := "No Label", fds_label := fl, fds_default := Option.none,
    bpy_idname := some "bf_x", bpy_default := Option.none,
    bf_prop_export := Option.none, precision := prec,
    kind := PropKind.base }

/-- An always-exported unlabeled base property. -/
def pPlain : BFProp := mkBaseProp Option.none Option.none

/-- A base property with FDS label `ID`. -/
def pID : BFProp := mkBaseProp (some "ID") Option.none

/-- A base property gated by an export-flag descriptor
(displayed default `False`). -/
def pGated : BFProp :=
  { mkBaseProp Option.none Option.none with
    bf_prop_export :=
      some ⟨some "bf_export", some (.scalar (.bool false))⟩ }

/-- An entity holding `"example"` at `bf_x`. -/
def eExample : Element :=
  Element.empty.set "bf_x" (.scalar (.str "example"))

/-- A string property descriptor (`BFStringProp` with label `P1`). -/
def pStrA : BFProp :=
  { label := "P1", fds_label := some "P1",
    fds_default := some (.scalar (.str "")),
    bpy_idname := some "bf_p1", bpy_default := Option.none,
    bf_prop_export := Option.none, precision := Option.none,
    kind := PropKind.string }

/-- A string property descriptor (`BFStringProp` with label `P2`). -/
def pStrB : BFProp :=
  { label := "P2", fds_label := some "P2",
    fds_default := some (.scalar (.str "")),
    bpy_idname := some "bf_p2", bpy_default := Option.none,
    bf_prop_export := Option.none, precision := Option.none,
    kind := PropKind.string }

/-- A namelist with the two string children above. -/
def nlErrs : BFNamelist :=
  { name := "SN_test", label := "TEST", fds_label := some "TEST",
    fds_default := Option.none, fds_separator := " ",
    bpy_idname := Option.none, bpy_default := Option.none,
    bf_prop_export := Option.none, bf_props := [pStrA, pStrB],
    bpy_type := BpyType.scene }

/-- An entity giving both string children invalid values. -/
def eAmp : Element :=
  (Element.empty.set "bf_p1" (.scalar (.str "a&b"))).set "bf_p2"
    (.scalar (.str "c#d"))

/-- A free-parameters property descriptor (`BFFreeProp`). -/
def pFreeProp : BFProp :=
  { label := "Free parameters", fds_label := Option.none,
    fds_default := some (.scalar (.str "")),
    bpy_idname := some "bf_free", bpy_default := Option.none,
    bf_prop_export := Option.none, precision := Option.none,
    kind := PropKind.free }

/-- A namelist carrying a free-text property. -/
def nlFree : BFNamelist :=
  { name := "ON_free", label := "Free", fds_label := some "FREE",
    fds_default := Option.none, fds_separator := " ",
    bpy_idname := Option.none, bpy_default := Option.none,
    bf_prop_export := Option.none, bf_props := [pFreeProp],
    bpy_type := BpyType.object }

/-- A single token for the unregistered label `FOO` with value text
`1`. -/
def toksFoo : List PropToken := [⟨"FOO", PyVal.none, "1"⟩]

/-- A namelist with static label `OBST` and no children, used to
exercise `BFNamelist.format` directly. -/
def nlOBST : BFNamelist :=
  { name := "ON_OBST", label := "Obstacle", fds_label := some "OBST",
    fds_default := Option.none, fds_separator := " ",
    bpy_idname := Option.none, bpy_default := Option.none,
    bf_prop_export := Option.none, bf_props := [],
    bpy_type := BpyType.object }

/-! ## Helper lemmas -/

/-- `BFNamelist.to_fds` leaves the instance's `infos` state unchanged:
no `check` in this source contributes infos. -/
lemma BFNamelist.to_fds_infos_eq (n : BFNamelist) (e : Element)
    (infos : List String) : (n.to_fds e infos).2 = infos := by
  unfold BFNamelist.to_fds
  split
  · rfl
  · split
    · rfl
    · split
      · rfl
      · split <;> rfl

/-- `BFNamelist.from_fds` never reports an error on the modelled entity. -/
lemma BFNamelist.from_fds_err_none (n : BFNamelist) (e : Element)
    (tks : List PropToken) : (n.from_fds e tks).2 = Option.none := by
  unfold BFNamelist.from_fds
  split
  · rfl
  · rfl

/-! ## Theorems: the claims -/

/-- C9: importing an empty (or missing, modelled alike — both are falsy
in the source's `if not tokens`) token collection through
`BFNamelist.from_fds` returns immediately and changes nothing: the
bound entity is returned untouched — no reset to defaults, no free-text
write, no export flag — and no error is reported.  This holds for every
namelist, scene-bound ones included. -/
theorem BFNamelist_from_fds_empty_noop (n : BFNamelist) (e : Element) :
    n.from_fds e [] = (e, Option.none) := rfl

/-- C6: exporting a namelist twice without mutating the entity in
between yields identical results (both the same string, or null both
times, or the same error): `BFNamelist.to_fds` does not mutate the
entity, and the instance's `infos` state it threads is unchanged by a
call, so the second call starts from the same state. -/
theorem BFNamelist_to_fds_idempotent (n : BFNamelist) (e : Element)
    (infos : List String) :
    (n.to_fds e ((n.to_fds e infos).2)).1 = (n.to_fds e infos).1 := by
  rw [BFNamelist.to_fds_infos_eq]

/-- C10: each component of `calc_movement_from_bbox1_to_bbox0` equals
the difference of the corresponding centre coordinates of the two
boxes, and applying `move_xbs` to `bbox1` with that movement yields a
box centred on `bbox0`'s centre with `bbox1`'s extents.  (Python float
arithmetic is modelled by exact rationals.) -/
theorem calc_movement_matches_center_difference (bbox0 bbox1 : XB) :
    calc_movement_from_bbox1_to_bbox0 bbox0 bbox1 =
      (bbox0.center.1 - bbox1.center.1,
       bbox0.center.2.1 - bbox1.center.2.1,
       bbox0.center.2.2 - bbox1.center.2.2)
    ∧ (move_xbs [bbox1] (calc_movement_from_bbox1_to_bbox0 bbox0 bbox1)).map
        XB.center = [bbox0.center]
    ∧ (move_xbs [bbox1] (calc_movement_from_bbox1_to_bbox0 bbox0 bbox1)).map
        XB.size = [bbox1.size] := by
  refine ⟨?_, ?_, ?_⟩ <;>
    simp only [calc_movement_from_bbox1_to_bbox0, move_xbs, XB.center,
      XB.size, List.map_cons, List.map_nil, List.cons.injEq, and_true,
      Prod.mk.injEq] <;>
    refine ⟨by ring, by ring, by ring⟩

/-- One document-import step preserves the store and appends exactly
the unmanaged token's original text to the buffer. -/
lemma BFScene.importToken_spec (reg : List BFNamelist)
    (acc : SceneState × List String × Bool) (tk : SceneToken) :
    (BFScene.importToken reg acc tk).1.store = acc.1.store ∧
    (BFScene.importToken reg acc tk).2.1 = acc.2.1 ++
      (if (BFScene.get_imported_bf_namelist_cls reg tk.fds_label
          tk.fds_params).isNone then [tk.fds_original] else []) := by
  obtain ⟨st, fts, errs⟩ := acc
  unfold BFScene.importToken
  cases h : BFScene.get_imported_bf_namelist_cls reg tk.fds_label tk.fds_params with
  | none => simp
  | some cls =>
    cases hb : cls.bpy_type <;>
      simp [hb, BFNamelist.from_fds_err_none]

/-- The document-import loop preserves the store and accumulates the
unmanaged originals. -/
lemma BFScene.foldl_importToken_spec (reg : List BFNamelist)
    (L : List SceneToken) : ∀ (st : SceneState) (fts : List String)
    (errs : Bool),
    (L.foldl (BFScene.importToken reg) (st, fts, errs)).1.store = st.store ∧
    (L.foldl (BFScene.importToken reg) (st, fts, errs)).2.1 = fts ++
      L.filterMap (fun tk =>
        if (BFScene.get_imported_bf_namelist_cls reg tk.fds_label
            tk.fds_params).isNone then some tk.fds_original
        else Option.none) := by
  induction L with
  | nil => intro st fts errs; simp
  | cons tk L ih =>
    intro st fts errs
    rw [List.foldl_cons]
    obtain ⟨h1, h2⟩ := BFScene.importToken_spec reg (st, fts, errs) tk
    obtain ⟨ih1, ih2⟩ := ih (BFScene.importToken reg (st, fts, errs) tk).1
      (BFScene.importToken reg (st, fts, errs) tk).2.1
      (BFScene.importToken reg (st, fts, errs) tk).2.2
    refine ⟨ih1.trans h1, ih2.trans ?_⟩
    rw [h2, List.filterMap_cons]
    by_cases hc : (BFScene.get_imported_bf_namelist_cls reg tk.fds_label
        tk.fds_params).isNone
    · simp [hc]
    · simp [hc]

/-- C5: on every scene-level document import, `BFScene.from_fds`
rewrites the free-text overflow store unconditionally — also when
nothing was unmanaged in that import — and the newly written content is
the import's unmanaged texts followed by the store's prior contents
(merged, not replaced). -/
theorem BFScene_from_fds_rewrites_merged_store (reg : List BFNamelist)
    (st : SceneState) (input : Except (List String) (List SceneToken)) :
    ((BFScene.from_fds reg st input).1).store =
      String.intercalate "\n" (BFScene.importFreeTexts reg input ++
        (if st.store = "" then [] else [st.store])) := by
  cases input with
  | error fts =>
    simp only [BFScene.from_fds, BFScene.importFreeTexts,
      BFScene.save_imported_unmanaged_tokens]
    by_cases h : st.store = "" <;> simp [h]
  | ok tokens =>
    obtain ⟨h1, h2⟩ := BFScene.foldl_importToken_spec reg
      (sortTokensSurfFirst tokens) st [] false
    simp only [BFScene.from_fds, BFScene.importFreeTexts,
      BFScene.save_imported_unmanaged_tokens, h1, h2, List.nil_append]
    by_cases h : st.store = "" <;> simp [h]

/-- A non-null `BFProp.stringFormat` result starts with `LABEL=` when
the descriptor's `fds_label` is set. -/
lemma BFProp.stringFormat_starts_with_label (p : BFProp) (v : PyVal)
    (s l : String) (hl : p.fds_label = some l)
    (h : p.stringFormat v = some s) : ∃ t, s = l ++ "=" ++ t := by
  unfold BFProp.stringFormat at h
  rw [hl] at h
  split at h
  · simp only [Option.some.injEq] at h
    refine ⟨"\x27" ++ v.str_ ++ "\x27", ?_⟩
    rw [← h]
    simp only [String.append_assoc]
    rw [show ("=\x27" : String) = "=" ++ "\x27" from rfl,
      String.append_assoc]
  · simp at h

/-- A non-null `BFProp.baseFormat` result starts with `LABEL=` when the
descriptor's `fds_label` is set. -/
lemma BFProp.baseFormat_starts_with_label (p : BFProp) (v : PyVal)
    (s l : String) (hl : p.fds_label = some l)
    (h : p.baseFormat v = .ok (some s)) : ∃ t, s = l ++ "=" ++ t := by
  unfold BFProp.baseFormat at h
  split at h
  · simp at h
  · split at h
    · simp at h
    · simp at h
    · rw [hl] at h
      simp only [Except.ok.injEq, Option.some.injEq] at h
      exact ⟨_, h.symm⟩

/-- A non-null `BFProp.format` result starts with `LABEL=` when the
descriptor's `fds_label` is set. -/
lemma BFProp.format_starts_with_label (p : BFProp) (v : PyVal) (s l : String)
    (hl : p.fds_label = some l) (h : p.format v = .ok (some s)) :
    ∃ t, s = l ++ "=" ++ t := by
  unfold BFProp.format at h
  split at h <;>
    first
      | exact BFProp.stringFormat_starts_with_label p v s l hl
          (Except.ok.inj h)
      | exact BFProp.baseFormat_starts_with_label p v s l hl h

/-- C1 (amended): the claimed equivalence fails in one direction — see
the counterexample `BFProp_to_fds_null_while_exported` — so: for every
property descriptor and entity, `BFProp.to_fds` returns null *if*
`BFProp.get_exported` is false (when exported, the result is the
formatted value, which may itself be null when the value renders to
nothing); and whenever the result is non-null it starts with
`fds_label` followed by `=` when `fds_label` is set, else it is
unprefixed. -/
theorem BFProp_to_fds_null_when_unexported_and_labeled (p : BFProp)
    (e : Element) :
    (p.get_exported e = false → p.to_fds e = .ok Option.none)
    ∧ (∀ s l, p.to_fds e = .ok (some s) → p.fds_label = some l →
        ∃ t, s = l ++ "=" ++ t) := by
  constructor
  · intro h
    unfold BFProp.to_fds
    rw [h]
    rfl
  · intro s l h hl
    unfold BFProp.to_fds at h
    split at h
    · simp at h
    · split at h
      · simp at h
      · exact BFProp.format_starts_with_label p _ s l hl h

/-- C1 counterexample: an always-exported base property whose value is
unset exports to null while `get_exported` is true, so "`to_fds`
returns null if and only if `get_exported` is false" is refuted at this
concrete input. -/
theorem BFProp_to_fds_null_while_exported :
    ¬ ((BFProp.to_fds pPlain Element.empty = Except.ok Option.none) ↔
       (BFProp.get_exported pPlain Element.empty = false)) := by
  intro hiff
  have h := hiff.mp rfl
  have h2 : BFProp.get_exported pPlain Element.empty = true := rfl
  rw [h2] at h
  exact Bool.noConfusion h

/-- C1 witness: the amended theorem applied to a gated property with
the flag off (null export) and to an `ID`-labeled property holding
`"example"` (prefixed export). -/
theorem BFProp_to_fds_null_when_unexported_witness :
    BFProp.to_fds pGated Element.empty = Except.ok Option.none
    ∧ ∃ t, "ID=\x27example\x27" = "ID" ++ "=" ++ t := by
  constructor
  · exact (BFProp_to_fds_null_when_unexported_and_labeled pGated
      Element.empty).1 rfl
  · exact (BFProp_to_fds_null_when_unexported_and_labeled pID eExample).2
      "ID=\x27example\x27" "ID" rfl rfl

/-- The float branch succeeds elementwise on all-float sequences. -/
lemma mapFixed_floats (pr : Nat) (l : List ℚ) :
    mapFixed pr (l.map PyScalar.float) = .ok (l.map (fixedPoint pr)) := by
  induction l with
  | nil => rfl
  | cons q l ih =>
    simp only [List.map_cons, mapFixed, pyFixedFmt, ih]
    rfl

/-- Boolean elements render by truthiness. -/
lemma map_pyBoolFmt (l : List Bool) :
    (l.map PyScalar.bool).map pyBoolFmt =
      l.map (fun x => if x then ".TRUE." else ".FALSE.") := by
  induction l with
  | nil => rfl
  | cons b l ih => simp [pyBoolFmt, PyScalar.truthy, ih]

/-- Integer elements render as decimals. -/
lemma map_intStr (l : List Int) :
    (l.map PyScalar.int).map PyScalar.str_ = l.map toString := by
  induction l with
  | nil => rfl
  | cons i l ih => simp [PyScalar.str_, ih]

/-- String elements render single-quoted. -/
lemma map_strQuote (l : List String) :
    (l.map PyScalar.str).map (fun x => "\x27" ++ x.str_ ++ "\x27") =
      l.map (fun x => "\x27" ++ x ++ "\x27") := by
  induction l with
  | nil => rfl
  | cons s l ih => simp [PyScalar.str_, ih]

/-- C8: `BFProp.format` renders by runtime type — `None` yields null; a
scalar is treated as a single-element sequence; boolean sequences
comma-join as `.TRUE.`/`.FALSE.`, integer sequences as bare decimals,
float sequences as fixed-point with default precision 3, string
sequences each single-quoted with an empty string value yielding null —
and the result is prefixed `LABEL=` when `fds_label` is set; in
particular an `ID`-labeled property with value `"example"` formats as
`ID='example'` and a `COLOR`-labeled property with integer values
`(3,4,5)` formats as `COLOR=3,4,5`. -/
theorem BFProp_format_by_runtime_type
    (fl : Option String) (prec : Option Nat) (b : Bool) (bs : List Bool)
    (i : Int) (il : List Int) (q : ℚ) (ql : List ℚ) (s : String)
    (sl : List String) :
    ((mkBaseProp fl prec).format PyVal.none = .ok Option.none)
    ∧ ((mkBaseProp fl prec).format (.scalar (.bool b)) =
        (mkBaseProp fl prec).format (.list [.bool b]))
    ∧ ((mkBaseProp fl prec).format (.scalar (.int i)) =
        (mkBaseProp fl prec).format (.list [.int i]))
    ∧ ((mkBaseProp fl prec).format (.scalar (.float q)) =
        (mkBaseProp fl prec).format (.list [.float q]))
    ∧ ((mkBaseProp fl prec).format (.list ((b :: bs).map PyScalar.bool)) =
        .ok (some (withLabel fl (String.intercalate ","
          ((b :: bs).map (fun x => if x then ".TRUE." else ".FALSE."))))))
    ∧ ((mkBaseProp fl prec).format (.list ((i :: il).map PyScalar.int)) =
        .ok (some (withLabel fl (String.intercalate ","
          ((i :: il).map toString)))))
    ∧ ((mkBaseProp fl prec).format (.list ((q :: ql).map PyScalar.float)) =
        .ok (some (withLabel fl (String.intercalate ","
          ((q :: ql).map (fixedPoint (prec.getD 3)))))))
    ∧ ((mkBaseProp fl prec).format (.scalar (.str s)) =
        .ok (if s = "" then Option.none
          else some (withLabel fl ("\x27" ++ s ++ "\x27"))))
    ∧ ((mkBaseProp fl prec).format (.list ((s :: sl).map PyScalar.str)) =
        .ok (some (withLabel fl (String.intercalate ","
          ((s :: sl).map (fun x => "\x27" ++ x ++ "\x27"))))))
    ∧ (pID.format (.scalar (.str "example")) = .ok (some "ID=\x27example\x27"))
    ∧ ((mkBaseProp (some "COLOR") Option.none).format
        (.list [.int 3, .int 4, .int 5]) = .ok (some "COLOR=3,4,5")) := by
  refine ⟨rfl, rfl, rfl, rfl, ?_, ?_, ?_, ?_, ?_, rfl, rfl⟩
  · simp only [BFProp.format, mkBaseProp, BFProp.baseFormat,
      BFProp.baseBody, pyValues, List.map_cons, withLabel]
    rw [map_pyBoolFmt]
    simp only [pyBoolFmt, PyScalar.truthy]
  · simp only [BFProp.format, mkBaseProp, BFProp.baseFormat,
      BFProp.baseBody, pyValues, List.map_cons, withLabel]
    rw [map_intStr]
    simp only [PyScalar.str_]
  · simp only [BFProp.format, mkBaseProp, BFProp.baseFormat,
      BFProp.baseBody, pyValues, List.map_cons, withLabel]
    rw [show mapFixed (prec.getD 3)
        (PyScalar.float q :: List.map PyScalar.float ql) =
        Except.ok (List.map (fixedPoint (prec.getD 3)) (q :: ql)) from
      mapFixed_floats (prec.getD 3) (q :: ql)]
    rfl
  · simp only [BFProp.format, mkBaseProp, BFProp.baseFormat,
      BFProp.baseBody, pyValues, PyVal.truthy, PyScalar.truthy, withLabel]
    by_cases h : s = "" <;>
      simp [h, String.intercalate, String.intercalate.go, PyScalar.str_]
  · simp only [BFProp.format, mkBaseProp, BFProp.baseFormat,
      BFProp.baseBody, pyValues, List.map_cons, PyVal.truthy, withLabel]
    rw [map_strQuote]
    simp [PyScalar.str_]

/-- When every child export failure is a descriptor error, the export
loop completes over the whole list and returns every raised error in
order. -/
lemma BFNamelist.exportProps_ok_of_all_bf (e : Element) (L : List BFProp) :
    ∀ (params : List String) (errors : List Err),
    (L.all fun p => match BFProp.to_fds p e with
      | .error er => er.isBF
      | .ok _ => true) = true →
    ∃ params2, BFNamelist.exportProps e L params errors =
      .ok (params2, errors ++ L.filterMap (fun p =>
        match BFProp.to_fds p e with
        | .error er => some er
        | .ok _ => Option.none)) := by
  induction L with
  | nil =>
    intro params errors _
    exact ⟨params, by simp [BFNamelist.exportProps]⟩
  | cons p ps ih =>
    intro params errors hall
    rw [List.all_cons, Bool.and_eq_true] at hall
    obtain ⟨hp, hps⟩ := hall
    unfold BFNamelist.exportProps
    cases hto : BFProp.to_fds p e with
    | error er =>
      rw [hto] at hp
      simp only [hto, List.filterMap_cons]
      rw [if_pos hp]
      obtain ⟨p2, h2⟩ := ih params (errors ++ [er]) hps
      refine ⟨p2, h2.trans ?_⟩
      simp [List.append_assoc]
    | ok param =>
      simp only [hto, List.filterMap_cons]
      cases param with
      | none => exact ih params errors hps
      | some s =>
        by_cases hs : s = ""
        · simp only [hs, if_true]
          exact ih params errors hps
        · simp only [hs, if_false]
          exact ih (params ++ [s]) errors hps

/-- C2: when an exported namelist's children raise (only) descriptor
errors, `BFNamelist.to_fds` attempts every child export — never
stopping at the first failure — and raises exactly one compound error
whose nested causes are all the children's errors in order; no record
string is returned. -/
theorem BFNamelist_to_fds_aggregates_all_child_errors (n : BFNamelist)
    (e : Element) (infos : List String)
    (hexp : n.get_exported e = true)
    (hall : (n.bf_props.all fun p => match BFProp.to_fds p e with
      | .error er => er.isBF
      | .ok _ => true) = true)
    (hne : BFNamelist.childErrs n e ≠ []) :
    (n.to_fds e infos).1 =
      .error (.bf n.strOf "Following errors reported"
        (BFNamelist.childErrs n e)) := by
  obtain ⟨p2, h2⟩ := BFNamelist.exportProps_ok_of_all_bf e n.bf_props [] [] hall
  unfold BFNamelist.to_fds
  rw [hexp]
  simp only [Bool.not_true, Bool.false_eq_true, if_false, h2,
    List.nil_append]
  rw [show (n.bf_props.filterMap (fun p =>
      match BFProp.to_fds p e with
      | .error er => some er
      | .ok _ => Option.none)) = BFNamelist.childErrs n e from rfl]
  cases hcc : BFNamelist.childErrs n e with
  | nil => exact absurd hcc hne
  | cons a as => rfl

/-- C2 witness: the namelist with two invalid string children raises
one compound error holding both child errors, in order. -/
theorem BFNamelist_to_fds_aggregates_witness :
    (nlErrs.to_fds eAmp []).1 =
      .error (.bf "TEST" "Following errors reported"
        [.bf "P1" "& and / characters not allowed" [],
         .bf "P2" "Some special characters are not allowed (eg. #)" []]) := by
  have h := BFNamelist_to_fds_aggregates_all_child_errors nlErrs eAmp [] rfl
    rfl
    (by
      intro hc
      have hl : (BFNamelist.childErrs nlErrs eAmp).length = 2 := rfl
      rw [hc] at hl
      simp at hl)
  exact h.trans rfl

/-- The import token loop accumulates exactly the reconstructed texts
of the unmanaged tokens. -/
lemma BFNamelist.foldl_importTokenStep_fts (n : BFNamelist)
    (L : List PropToken) : ∀ (e : Element) (acc : List String),
    (L.foldl n.importTokenStep (e, acc)).2 = acc ++ L.filterMap (fun t =>
      if (n.get_by_fds_label t.fds_label).isNone then
        some (t.fds_label ++ "=" ++ t.fds_value)
      else Option.none) := by
  induction L with
  | nil => intro e acc; simp
  | cons t L ih =>
    intro e acc
    rw [List.foldl_cons, List.filterMap_cons]
    cases h : n.get_by_fds_label t.fds_label with
    | some p =>
      have hstep : n.importTokenStep (e, acc) t = (p.from_fds e t.value, acc) := by
        unfold BFNamelist.importTokenStep
        rw [h]
      rw [hstep, ih]
      simp [h]
    | none =>
      have hstep : n.importTokenStep (e, acc) t =
          (e, acc ++ [t.fds_label ++ "=" ++ t.fds_value]) := by
        unfold BFNamelist.importTokenStep
        rw [h]
      rw [hstep, ih]
      simp [h]

/-- Instance of the loop lemma at the empty initial buffer. -/
lemma BFNamelist.foldl_importTokenStep_unmanaged (n : BFNamelist)
    (tokens : List PropToken) (e1 : Element) :
    ((sortTokensSurfLast tokens).foldl n.importTokenStep (e1, [])).2 =
      n.unmanagedTexts tokens := by
  rw [BFNamelist.foldl_importTokenStep_fts]
  simp [BFNamelist.unmanagedTexts]

/-- C3: importing tokens whose external label matches no managed child
descriptor appends the reconstructed token text `label=value` to the
unmanaged buffer, and after all tokens the joined buffer is stored in
the free-text property (last write apart from the export flag, which
lives on a different attribute). -/
theorem BFNamelist_from_fds_stores_unmanaged_in_free_text
    (n : BFNamelist) (e : Element) (tokens : List PropToken)
    (fp : BFProp) (fi : String)
    (hfree : n.bf_prop_free = some fp)
    (hid : fp.bpy_idname = some fi)
    (hex : ∀ ex, n.bf_prop_export = some ex → ex.bpy_idname ≠ some fi)
    (hne : n.unmanagedTexts tokens ≠ []) :
    (n.from_fds e tokens).1 fi =
      .scalar (.str (String.intercalate " " (n.unmanagedTexts tokens))) := by
  have htok : tokens ≠ [] := by
    intro h
    subst h
    exact hne rfl
  unfold BFNamelist.from_fds
  rw [show tokens.isEmpty = false from by
    cases tokens with
    | nil => exact absurd rfl htok
    | cons a l => rfl]
  cases hu : n.unmanagedTexts tokens with
  | nil => exact absurd hu hne
  | cons a as =>
    simp only [Bool.false_eq_true, if_false,
      BFNamelist.foldl_importTokenStep_unmanaged, hu, hfree]
    unfold BFNamelist.set_exported
    cases hexp : n.bf_prop_export with
    | none =>
      simp [BFProp.set_value, hid, Element.set]
    | some ex =>
      unfold ExportProp.set_value
      cases hxi : ex.bpy_idname with
      | none =>
        simp [hxi, BFProp.set_value, hid, Element.set]
      | some xi =>
        have hne2 : fi ≠ xi := by
          intro hcontra
          exact hex ex hexp (by rw [hxi, hcontra])
        simp [hxi, BFProp.set_value, hid, Element.set, hne2]

/-- C3 witness: importing the unregistered token `FOO` with value text
`1` on a namelist with a free-text property leaves `FOO=1` in the
free-text property's value. -/
theorem BFNamelist_from_fds_unmanaged_witness :
    (nlFree.from_fds Element.empty toksFoo).1 "bf_free" =
      .scalar (.str "FOO=1") :=
  BFNamelist_from_fds_stores_unmanaged_in_free_text nlFree Element.empty
    toksFoo pFreeProp "bf_free" rfl rfl (fun ex h => nomatch h)
    (by
      rw [show nlFree.unmanagedTexts toksFoo = ["FOO=1"] from rfl]
      exact List.cons_ne_nil _ _)

/-- `extractMulti` finds the first multiparam behind any string
parameters. -/
lemma extractMulti_str (S : List String) (ms : List String)
    (rest : List Param) :
    extractMulti (S.map Param.str ++ Param.multi ms :: rest) =
      (some ms, S.map Param.str ++ rest) := by
  induction S with
  | nil => rfl
  | cons s S ih => simp [extractMulti, ih]

/-- `removeFirstID` on string parameters is `dropFirstIDStr`. -/
lemma removeFirstID_map_str (L : List String) :
    removeFirstID (L.map Param.str) = (dropFirstIDStr L).map Param.str := by
  induction L with
  | nil => rfl
  | cons s L ih =>
    simp only [List.map_cons, removeFirstID, dropFirstIDStr]
    by_cases h : isIDParam s = true
    · simp [h]
    · simp [h, ih]

/-- Joining all-string parameters succeeds. -/
lemma paramsAsStrings_map_str (L : List String) :
    paramsAsStrings (L.map Param.str) = .ok L := by
  induction L with
  | nil => rfl
  | cons s L ih =>
    simp only [List.map_cons, paramsAsStrings, ih]
    rfl

/-- After removing the only `ID=` parameter, none remains. -/
lemma dropFirstIDStr_no_ID (L : List String)
    (h : L.countP (fun s => isIDParam s) = 1) :
    ∀ s ∈ dropFirstIDStr L, ¬ isIDParam s = true := by
  induction L with
  | nil => simp [dropFirstIDStr]
  | cons a L ih =>
    rw [List.countP_cons] at h
    by_cases ha : isIDParam a = true
    · have h0 : L.countP (fun s => isIDParam s) = 0 := by
        rw [if_pos ha] at h
        omega
      simp only [dropFirstIDStr, if_pos ha]
      intro s hs
      exact List.countP_eq_zero.mp h0 s hs
    · have h1 : L.countP (fun s => isIDParam s) = 1 := by
        rw [if_neg ha] at h
        omega
      simp only [dropFirstIDStr, if_neg ha]
      intro s hs
      rcases List.mem_cons.mp hs with rfl | hs
      · exact ha
      · exact ih h1 s hs

/-- C4: for a namelist whose exported child parameters are scalar
strings including exactly one `ID=` parameter plus one multiparam with
three alternative bodies, `BFNamelist.format` produces exactly three
records, each beginning with `&LABEL`, each containing its own
alternative body, all sharing the same remaining scalar parameters —
from which the single `ID=` parameter has been removed, so no record
contains it. -/
theorem BFNamelist_format_multiparam_expansion (n : BFNamelist)
    (lbl : String) (infos : List String) (S1 S2 : List String)
    (b1 b2 b3 : String)
    (hlbl : n.fds_label = some lbl)
    (hone : (S1 ++ S2).countP (fun s => isIDParam s) = 1) :
    n.format infos
        (S1.map Param.str ++ Param.multi [b1, b2, b3] :: S2.map Param.str) =
      .ok (renderInfos infos ++ String.join ([b1, b2, b3].map (fun b =>
        "&" ++ lbl ++ " " ++ b ++ n.fds_separator ++
          String.intercalate n.fds_separator
            (dropFirstIDStr (S1 ++ S2) ++ ["/\n"]))))
    ∧ ∀ s ∈ dropFirstIDStr (S1 ++ S2), ¬ isIDParam s = true := by
  refine ⟨?_, dropFirstIDStr_no_ID _ hone⟩
  unfold BFNamelist.format
  have h1 : BFNamelist.formatLbl n
      (S1.map Param.str ++ Param.multi [b1, b2, b3] :: S2.map Param.str) =
      .ok (lbl,
        S1.map Param.str ++ Param.multi [b1, b2, b3] :: S2.map Param.str) := by
    unfold BFNamelist.formatLbl
    rw [hlbl]
  rw [h1]
  unfold BFNamelist.formatBody
  simp only [extractMulti_str, ← List.map_append, removeFirstID_map_str,
    paramsAsStrings_map_str]

/-- C4 witness: the theorem applied to an `OBST` namelist with an `ID`
parameter, one shared `FYI` parameter and a three-body multiparam. -/
theorem BFNamelist_format_multiparam_witness :
    nlOBST.format [] [Param.str "ID=\x27x\x27", Param.str "FYI=\x27f\x27",
        Param.multi ["XB=1", "XB=2", "XB=3"]] =
      .ok ("&OBST XB=1 FYI=\x27f\x27 /\n&OBST XB=2 FYI=\x27f\x27 /\n" ++
        "&OBST XB=3 FYI=\x27f\x27 /\n") := by
  have h := (BFNamelist_format_multiparam_expansion nlOBST "OBST" []
    ["ID=\x27x\x27", "FYI=\x27f\x27"] [] "XB=1" "XB=2" "XB=3" rfl
    (by decide)).1
  exact h.trans rfl

/-- `strCheck` raises on `&`, `/` and `#`. -/
lemma strCheck_error_of_delims (snd s : String)
    (h : charIn s '&' = true ∨ charIn s '/' = true ∨ charIn s '#' = true) :
    ∃ er, strCheck snd s = .error er := by
  unfold strCheck
  split
  · exact ⟨_, rfl⟩
  · split
    · exact ⟨_, rfl⟩
    · split
      · exact ⟨_, rfl⟩
      · rename_i h1 h2 h3
        rcases h with h | h | h <;> simp_all

/-- `freeCheck` raises on `&`, `/` and `#`. -/
lemma freeCheck_error_of_delims (snd s : String)
    (h : charIn s '&' = true ∨ charIn s '/' = true ∨ charIn s '#' = true) :
    ∃ er, freeCheck snd s = .error er := by
  unfold freeCheck
  split
  · exact ⟨_, rfl⟩
  · split
    · exact ⟨_, rfl⟩
    · split
      · exact ⟨_, rfl⟩
      · rename_i h1 h2 h3
        rcases h with h | h | h <;> simp_all

/-- `freeCheck` raises on an odd single-quote count. -/
lemma freeCheck_error_of_odd (snd s : String)
    (h : s.toList.count '\'' % 2 = 1) :
    ∃ er, freeCheck snd s = .error er := by
  unfold freeCheck
  split
  · exact ⟨_, rfl⟩
  · split
    · exact ⟨_, rfl⟩
    · split
      · exact ⟨_, rfl⟩
      · rename_i h3
        simp only [Bool.or_eq_true, decide_eq_true_eq, not_or] at h3
        omega

/-- Any `strCheck` failure is caused by a structural delimiter or a
quote character. -/
lemma strCheck_error_reasons (snd s : String)
    (h : ∃ er, strCheck snd s = .error er) :
    charIn s '&' = true ∨ charIn s '/' = true ∨ charIn s '#' = true ∨
      charIn s '\'' = true ∨ charIn s '"' = true ∨ charIn s '`' = true ∨
      charIn s '“' = true ∨ charIn s '”' = true ∨ charIn s '‘' = true ∨
      strContainsSub s rsquoZwnj = true := by
  obtain ⟨er, h⟩ := h
  unfold strCheck at h
  split at h
  · rename_i h1
    simp only [Bool.or_eq_true] at h1
    tauto
  · split at h
    · rename_i h2
      tauto
    · split at h
      · rename_i h3
        simp only [Bool.or_eq_true] at h3
        tauto
      · exact absurd h (by simp)

/-- A `freeCheck` failure at an even single-quote count is caused by a
structural delimiter or a disallowed quote character — never by the
quote count. -/
lemma freeCheck_error_reasons (snd s : String)
    (heven : s.toList.count '\'' % 2 = 0)
    (h : ∃ er, freeCheck snd s = .error er) :
    charIn s '&' = true ∨ charIn s '/' = true ∨ charIn s '#' = true ∨
      charIn s '`' = true ∨ charIn s '‘' = true ∨ charIn s '"' = true ∨
      charIn s '”' = true ∨ strContainsSub s rsquoZwnj = true := by
  obtain ⟨er, h⟩ := h
  unfold freeCheck at h
  split at h
  · rename_i h1
    simp only [Bool.or_eq_true] at h1
    tauto
  · split at h
    · rename_i h2
      tauto
    · split at h
      · rename_i h3
        simp only [Bool.or_eq_true, decide_eq_true_eq] at h3
        rcases h3 with ((((h3 | h3) | h3) | h3) | h3) | h3
        · tauto
        · tauto
        · tauto
        · tauto
        · tauto
        · omega
      · exact absurd h (by simp)

/-- C7: for string-valued property descriptors (`BFStringProp`,
`BFFYIProp`, `BFFreeProp`), `BFProp.check` raises whenever the value
contains `&`, `/` or `#`; for free-parameter descriptors a value with
exactly one (unmatched) single quote always raises; and a value whose
single quotes number an even count never raises solely for the
quote-count reason — any failure then exhibits a structural delimiter
or disallowed quote character. -/
theorem string_prop_check_rejections (p : BFProp) (e : Element) (s : String)
    (hv : p.get_value e = .scalar (.str s)) :
    ((p.kind = PropKind.string ∨ p.kind = PropKind.fyi ∨
        p.kind = PropKind.free) →
      (charIn s '&' = true ∨ charIn s '/' = true ∨ charIn s '#' = true) →
      ∃ er, p.check e = .error er)
    ∧ (p.kind = PropKind.free → s.toList.count '\'' = 1 →
      ∃ er, p.check e = .error er)
    ∧ (p.kind = PropKind.free → s.toList.count '\'' % 2 = 0 →
      (∃ er, p.check e = .error er) →
      (charIn s '&' = true ∨ charIn s '/' = true ∨ charIn s '#' = true ∨
       charIn s '`' = true ∨ charIn s '‘' = true ∨ charIn s '"' = true ∨
       charIn s '”' = true ∨ strContainsSub s rsquoZwnj = true))
    ∧ ((p.kind = PropKind.string ∨ p.kind = PropKind.fyi) →
      (∃ er, p.check e = .error er) →
      (charIn s '&' = true ∨ charIn s '/' = true ∨ charIn s '#' = true ∨
       charIn s '\'' = true ∨ charIn s '"' = true ∨ charIn s '`' = true ∨
       charIn s '“' = true ∨ charIn s '”' = true ∨ charIn s '‘' = true ∨
       strContainsSub s rsquoZwnj = true)) := by
  have hstr : ∀ hk : p.kind = PropKind.string ∨ p.kind = PropKind.fyi,
      p.check e = strCheck p.strOf s := by
    intro hk
    unfold BFProp.check
    rcases hk with hk | hk <;> rw [hk] <;> rw [hv]
  have hfree : p.kind = PropKind.free → p.check e = freeCheck p.strOf s := by
    intro hk
    unfold BFProp.check
    rw [hk, hv]
  refine ⟨?_, ?_, ?_, ?_⟩
  · intro hk hc
    rcases hk with hk | hk | hk
    · rw [hstr (Or.inl hk)]
      exact strCheck_error_of_delims _ _ hc
    · rw [hstr (Or.inr hk)]
      exact strCheck_error_of_delims _ _ hc
    · rw [hfree hk]
      exact freeCheck_error_of_delims _ _ hc
  · intro hk hc
    rw [hfree hk]
    exact freeCheck_error_of_odd _ _ (by omega)
  · intro hk heven herr
    rw [hfree hk] at herr
    exact freeCheck_error_reasons _ _ heven herr
  · intro hk herr
    rw [hstr hk] at herr
    exact strCheck_error_reasons _ _ herr

/-- C7 witness: the theorem applied to a free-parameter descriptor
holding `a&b` (delimiter rejection), one holding a single unmatched
quote (quote-count rejection), and a string descriptor holding `x#y`
with an even (zero) quote count, whose failure exhibits the `#`. -/
theorem string_prop_check_rejections_witness :
    (∃ er, BFProp.check pFreeProp
      (Element.empty.set "bf_free" (.scalar (.str "a&b"))) = .error er)
    ∧ (∃ er, BFProp.check pFreeProp
      (Element.empty.set "bf_free" (.scalar (.str "don\x27t"))) = .error er)
    ∧ (charIn "x#y" '&' = true ∨ charIn "x#y" '/' = true ∨
       charIn "x#y" '#' = true ∨ charIn "x#y" '\'' = true ∨
       charIn "x#y" '"' = true ∨ charIn "x#y" '`' = true ∨
       charIn "x#y" '“' = true ∨ charIn "x#y" '”' = true ∨
       charIn "x#y" '‘' = true ∨
       strContainsSub "x#y" rsquoZwnj = true) := by
  refine ⟨?_, ?_, ?_⟩
  · exact (string_prop_check_rejections pFreeProp
      (Element.empty.set "bf_free" (.scalar (.str "a&b"))) "a&b" rfl).1
      (Or.inr (Or.inr rfl)) (Or.inl (by decide))
  · exact (string_prop_check_rejections pFreeProp
      (Element.empty.set "bf_free" (.scalar (.str "don\x27t"))) "don\x27t"
      rfl).2.1 rfl (by decide)
  · exact (string_prop_check_rejections pStrA
      (Element.empty.set "bf_p1" (.scalar (.str "x#y"))) "x#y" rfl).2.2.2
      (Or.inl rfl) ⟨_, rfl⟩

end BlenderFDS
